import Mathlib

/-!
Verification of the UnleashedJS C runtime (`src/handlers/unleashedjs/ujs.c`).

The core is a manually reference-counted object:

  typedef struct { int ref_count; char* data; size_t size; } JSObject;

with operations `create_js_object`, `retain_js_object`, `release_js_object`
and `js_object_get_data`, plus utility functions `fast_math_operation`,
`get_cpu_cycles` and the demo routine `perform_low_level_demo`.

Embedding choices:
* a C pointer to a `JSObject` is a `Ptr`: `null`, `live obj` (points at an
  allocated object) or `dangling` (points at freed memory);
* applying an operation to a `dangling` pointer is undefined behavior in C,
  modelled as `none`; all other outcomes are `some _`;
* `char* data` inside the struct is `Option String` (`none` models a NULL
  payload pointer, which the C code can produce when `malloc` fails);
* `malloc` success/failure is an explicit boolean oracle argument;
* calls to `free` are recorded as an ordered trace of `Event`s, so that
  "payload freed before the structure, each exactly once" is provable;
* C `int` is `Int`, `size_t` is `Nat`, `double` is `ℚ` (exact arithmetic
  abstracting IEEE doubles: the claims concern operator dispatch and the
  division-by-zero fallback, not rounding), `uint64_t`/`uint32_t` are `Nat`
  with explicit bounds.
-/

/-- Model of the C struct `JSObject`:
`int ref_count; char* data; size_t size;`.
`data = none` models a NULL payload pointer. -/
structure JSObject where
  ref_count : Int
  data : Option String
  size : Nat
  deriving DecidableEq

/-- A deallocation event: `freeData` records the call `free(obj->data)`,
`freeObj` the call `free(obj)`. -/
inductive Event where
  | freeData
  | freeObj
  deriving DecidableEq

/-- A C pointer to a `JSObject`: NULL, pointing at a live allocated object,
or pointing at already-freed memory (dangling). -/
inductive Ptr where
  | null
  | live (obj : JSObject)
  | dangling
  deriving DecidableEq

/-- `create_js_object(const char* data)`.
`okObj` / `okData` are the success oracles for the two `malloc` calls.
Mirrors the C exactly: if `malloc(sizeof(JSObject))` fails, return NULL;
otherwise set `ref_count = 1`, `size = strlen(data) + 1`, attempt the
payload allocation, copy the string only when that allocation succeeded,
and return the object in either case (the C code does NOT free `obj` or
return NULL when the payload allocation fails). -/
def create_js_object (okObj okData : Bool) (data : String) : Ptr :=
  if okObj then
    Ptr.live ⟨1, if okData then some data else none, data.length + 1⟩
  else
    Ptr.null

/-- `retain_js_object(JSObject* obj)`: `if (obj) obj->ref_count++;`.
On a dangling pointer the C behavior is undefined (`none`). -/
def retain_js_object : Ptr → Option Ptr
  | Ptr.null => some Ptr.null
  | Ptr.live obj => some (Ptr.live ⟨obj.ref_count + 1, obj.data, obj.size⟩)
  | Ptr.dangling => none

/-- `release_js_object(JSObject* obj)`:
`if (obj && --obj->ref_count == 0) { free(obj->data); free(obj); }`.
Returns the resulting pointer state together with the trace of `free`
calls performed. On a dangling pointer the C behavior is undefined. -/
def release_js_object : Ptr → Option (Ptr × List Event)
  | Ptr.null => some (Ptr.null, [])
  | Ptr.live obj =>
      if obj.ref_count - 1 = 0 then
        some (Ptr.dangling, [Event.freeData, Event.freeObj])
      else
        some (Ptr.live ⟨obj.ref_count - 1, obj.data, obj.size⟩, [])
  | Ptr.dangling => none

/-- `js_object_get_data(JSObject* obj)`: `return obj ? obj->data : "null";`.
The outer `Option` is definedness (UB on a dangling pointer); the inner
`Option String` is the returned `const char*`, which is NULL exactly when
the stored payload pointer is NULL. -/
def js_object_get_data : Ptr → Option (Option String)
  | Ptr.null => some (some "null")
  | Ptr.live obj => some obj.data
  | Ptr.dangling => none

/-- One reference-counting call in a client-visible sequence. -/
inductive Op where
  | retain
  | release
  deriving DecidableEq

/-- Run one operation on a pointer, accumulating the trace of frees. -/
def runOp : Ptr × List Event → Op → Option (Ptr × List Event)
  | (p, evs), Op.retain =>
      match retain_js_object p with
      | none => none
      | some q => some (q, evs)
  | (p, evs), Op.release =>
      match release_js_object p with
      | none => none
      | some (q, es) => some (q, evs ++ es)

/-- Run a sequence of retain/release calls on a pointer. -/
def run : Ptr × List Event → List Op → Option (Ptr × List Event)
  | s, [] => some s
  | s, op :: ops =>
      match runOp s op with
      | none => none
      | some s2 => run s2 ops

/-- The exact call sequence `perform_low_level_demo` performs after its
create: two retains then three releases. -/
def demo_ops : List Op := [Op.retain, Op.retain, Op.release, Op.release, Op.release]

/-- `perform_low_level_demo()`: creates the demo object, returns -1 if the
creation returned NULL, otherwise retains twice, releases three times and
returns 0.  Result is the return value paired with the trace of frees. -/
def perform_low_level_demo (okObj okData : Bool) : Option (Int × List Event) :=
  match create_js_object okObj okData "JavaScript object managed by C!" with
  | Ptr.null => some (-1, [])
  | p =>
      match run (p, []) demo_ops with
      | none => none
      | some s => some (0, s.2)

/-- `fast_math_operation(double a, double b, int operation)`: four-branch
switch; division guards `b != 0` and falls back to 0; default returns 0.
Doubles are abstracted as exact rationals. -/
def fast_math_operation (a b : ℚ) (operation : Int) : ℚ :=
  if operation = 0 then a + b
  else if operation = 1 then a - b
  else if operation = 2 then a * b
  else if operation = 3 then (if b ≠ 0 then a / b else 0)
  else 0

/-- `get_cpu_cycles()` on `__x86_64__`: reads `rdtsc` into 32-bit registers
`lo` (eax) and `hi` (edx) and returns `((uint64_t)lo) | (((uint64_t)hi) << 32)`.
The register contents are arbitrary inputs here, reduced mod 2^32 as
`uint32_t` values; the function is a pure combination of them. -/
def get_cpu_cycles (hi lo : Nat) : Nat :=
  (lo % 2 ^ 32) ||| ((hi % 2 ^ 32) <<< 32)

/-- `get_cpu_cycles()` on non-x86_64 builds: `return 0;`. -/
def get_cpu_cycles_fallback : Nat := 0

/-! ### Helper lemmas -/

/-- Running a concatenated call sequence is running the pieces in order. -/
theorem run_append (l1 l2 : List Op) (s : Ptr × List Event) :
    run s (l1 ++ l2) =
      match run s l1 with
      | none => none
      | some s2 => run s2 l2 := by
  induction l1 generalizing s with
  | nil => simp [run]
  | cons op l1 ih =>
      simp only [List.cons_append, run]
      cases runOp s op with
      | none => rfl
      | some s2 => exact ih s2

/-- `n` retains on a live object add `n` to the count and free nothing. -/
theorem run_retains (n : Nat) (obj : JSObject) (evs : List Event) :
    run (Ptr.live obj, evs) (List.replicate n Op.retain)
      = some (Ptr.live ⟨obj.ref_count + n, obj.data, obj.size⟩, evs) := by
  induction n generalizing obj with
  | zero => simp [run]
  | succ n ih =>
      have h1 : runOp (Ptr.live obj, evs) Op.retain
          = some (Ptr.live ⟨obj.ref_count + 1, obj.data, obj.size⟩, evs) := rfl
      simp only [List.replicate_succ, run, h1]
      rw [ih ⟨obj.ref_count + 1, obj.data, obj.size⟩]
      have h2 : obj.ref_count + 1 + (n : Int) = obj.ref_count + ((n : Nat) + 1 : Nat) := by
        push_cast
        ring
      rw [h2]

/-- `k` releases on a live object with count above `k` subtract `k` from the
count, free nothing, and leave the object live. -/
theorem run_releases_live (k : Nat) (obj : JSObject) (evs : List Event)
    (h : (k : Int) < obj.ref_count) :
    run (Ptr.live obj, evs) (List.replicate k Op.release)
      = some (Ptr.live ⟨obj.ref_count - k, obj.data, obj.size⟩, evs) := by
  induction k generalizing obj with
  | zero => simp [run]
  | succ k ih =>
      have hne : ¬ (obj.ref_count - 1 = 0) := by omega
      have h1 : runOp (Ptr.live obj, evs) Op.release
          = some (Ptr.live ⟨obj.ref_count - 1, obj.data, obj.size⟩, evs) := by
        simp only [runOp, release_js_object, if_neg hne, List.append_nil]
      have h2 : (k : Int) < obj.ref_count - 1 := by omega
      simp only [List.replicate_succ, run, h1]
      rw [ih ⟨obj.ref_count - 1, obj.data, obj.size⟩ h2]
      have h3 : obj.ref_count - 1 - (k : Int) = obj.ref_count - ((k : Nat) + 1 : Nat) := by
        push_cast
        ring
      rw [h3]

/-- Releasing a live object exactly `count` times frees the payload and then
the object, in that order, on the final call, and leaves the pointer dangling. -/
theorem run_releases_frees (m : Nat) (obj : JSObject) (evs : List Event)
    (h : obj.ref_count = ((m : Nat) + 1 : Nat)) :
    run (Ptr.live obj, evs) (List.replicate (m + 1) Op.release)
      = some (Ptr.dangling, evs ++ [Event.freeData, Event.freeObj]) := by
  have hlt : (m : Int) < obj.ref_count := by
    rw [h]
    push_cast
    omega
  rw [List.replicate_succ' m Op.release, run_append, run_releases_live m obj evs hlt]
  have hone : obj.ref_count - (m : Int) - 1 = 0 := by
    rw [h]
    push_cast
    ring
  simp only [run, runOp, release_js_object, if_pos hone]

/-! ### Claim theorems -/

/-- C4: passing a NULL reference to `retain_js_object` or `release_js_object`
is a no-op that changes no state and frees nothing, and `js_object_get_data`
on NULL returns the fixed sentinel string "null"; none of the three is
undefined behavior on NULL. -/
theorem null_safety :
    retain_js_object Ptr.null = some Ptr.null
    ∧ release_js_object Ptr.null = some (Ptr.null, [])
    ∧ js_object_get_data Ptr.null = some (some "null") :=
  ⟨rfl, rfl, rfl⟩

/-- C2 (code behavior at the failing input): when the `JSObject` allocation
succeeds but the payload allocation fails, `create_js_object` does NOT report
failure and does NOT roll back: it returns a reachable live Handle whose
payload pointer is NULL, contradicting the specified rollback. -/
theorem create_partial_object_on_payload_failure :
    create_js_object true false "x" ≠ Ptr.null
    ∧ create_js_object true false "x" = Ptr.live ⟨1, none, 2⟩ := by
  constructor
  · intro h
    simp [create_js_object] at h
  · rfl

/-- C3: round-trip: when both allocations inside `create_js_object` succeed,
`js_object_get_data` on the resulting Handle returns exactly the input
string (also for the empty string). -/
theorem read_create_roundtrip (d : String) :
    js_object_get_data (create_js_object true true d) = some (some d) := rfl

/-- C7: the arithmetic dispatcher returns `a + b` for selector 0 (add),
`a - b` for 1 (subtract), `a * b` for 2 (multiply), `a / b` for 3 (divide)
when `b ≠ 0`, and the fallback 0 for divide when `b = 0`. -/
theorem fast_math_dispatch (a b : ℚ) :
    fast_math_operation a b 0 = a + b
    ∧ fast_math_operation a b 1 = a - b
    ∧ fast_math_operation a b 2 = a * b
    ∧ (b ≠ 0 → fast_math_operation a b 3 = a / b)
    ∧ fast_math_operation a 0 3 = 0 := by
  refine ⟨rfl, rfl, rfl, fun hb => ?_, rfl⟩
  simp [fast_math_operation, hb]

/-- Witness for C7 at `a = 1`, `b = 2`: the divide branch with a nonzero
divisor returns the quotient. -/
theorem fast_math_dispatch_witness :
    (2 : ℚ) ≠ 0 ∧ fast_math_operation 1 2 3 = 1 / 2 :=
  ⟨by norm_num, (fast_math_dispatch 1 2).2.2.2.1 (by norm_num)⟩

/-- C9: for every selector outside {0, 1, 2, 3} the dispatcher hits the
default branch and returns 0 regardless of the operands. -/
theorem fast_math_default_zero (a b : ℚ) (op : Int)
    (h0 : op ≠ 0) (h1 : op ≠ 1) (h2 : op ≠ 2) (h3 : op ≠ 3) :
    fast_math_operation a b op = 0 := by
  simp [fast_math_operation, h0, h1, h2, h3]

/-- Witness for C9 at `op = 7`. -/
theorem fast_math_default_zero_witness :
    (7 : Int) ≠ 0 ∧ (7 : Int) ≠ 1 ∧ (7 : Int) ≠ 2 ∧ (7 : Int) ≠ 3
    ∧ fast_math_operation 5 11 7 = 0 :=
  ⟨by norm_num, by norm_num, by norm_num, by norm_num,
    fast_math_default_zero 5 11 7 (by norm_num) (by norm_num) (by norm_num) (by norm_num)⟩

/-- C8: the cycle-counter reader is a pure function of the register values
(no side effects in the embedding); the x86_64 variant always yields a value
that fits in a `uint64_t` (hence non-negative, as its `Nat` type states), and
the non-x86_64 fallback returns the fixed value 0. -/
theorem cpu_cycles_bounds :
    get_cpu_cycles_fallback = 0
    ∧ ∀ hi lo : Nat, get_cpu_cycles hi lo < 2 ^ 64 := by
  refine ⟨rfl, fun hi lo => ?_⟩
  have hlo : lo % 2 ^ 32 < 2 ^ 64 := lt_of_lt_of_le (Nat.mod_lt _ (by norm_num)) (by norm_num)
  have hhi : (hi % 2 ^ 32) <<< 32 < 2 ^ 64 := by
    rw [Nat.shiftLeft_eq]
    calc (hi % 2 ^ 32) * 2 ^ 32 < 2 ^ 32 * 2 ^ 32 :=
          (Nat.mul_lt_mul_right (by norm_num)).mpr (Nat.mod_lt _ (by norm_num))
      _ = 2 ^ 64 := by norm_num
  exact Nat.bitwise_lt hlo hhi

/-- Composition: after a create (count 1), `n` retains followed by `k ≤ n`
releases leave the object live at count `1 + n - k` with nothing freed. -/
theorem run_create_retain_release (n k : Nat) (d : String) (hk : k ≤ n) :
    run (Ptr.live ⟨1, some d, d.length + 1⟩, [])
        (List.replicate n Op.retain ++ List.replicate k Op.release)
      = some (Ptr.live ⟨1 + (n : Int) - (k : Int), some d, d.length + 1⟩, []) := by
  rw [run_append]
  have h1 : run (Ptr.live ⟨1, some d, d.length + 1⟩, []) (List.replicate n Op.retain)
      = some (Ptr.live ⟨1 + (n : Int), some d, d.length + 1⟩, []) := run_retains n _ []
  rw [h1]
  have hlt : (k : Int) < 1 + (n : Int) := by
    have hkn : (k : Int) ≤ (n : Int) := by exact_mod_cast hk
    omega
  have h2 : run (Ptr.live ⟨1 + (n : Int), some d, d.length + 1⟩, [])
        (List.replicate k Op.release)
      = some (Ptr.live ⟨1 + (n : Int) - (k : Int), some d, d.length + 1⟩, []) :=
    run_releases_live k _ [] hlt
  exact h2

/-- Composition: after a create (count 1), `n` retains followed by `n + 1`
releases free the payload and then the object on the final release. -/
theorem run_create_retain_release_all (n : Nat) (d : String) :
    run (Ptr.live ⟨1, some d, d.length + 1⟩, [])
        (List.replicate n Op.retain ++ List.replicate (n + 1) Op.release)
      = some (Ptr.dangling, [Event.freeData, Event.freeObj]) := by
  rw [run_append]
  have h1 : run (Ptr.live ⟨1, some d, d.length + 1⟩, []) (List.replicate n Op.retain)
      = some (Ptr.live ⟨1 + (n : Int), some d, d.length + 1⟩, []) := run_retains n _ []
  rw [h1]
  have h2 : run (Ptr.live ⟨1 + (n : Int), some d, d.length + 1⟩, [])
        (List.replicate (n + 1) Op.release)
      = some (Ptr.dangling, [] ++ [Event.freeData, Event.freeObj]) :=
    run_releases_frees n _ [] (by push_cast; ring)
  exact h2

/-- C1: from a Handle successfully created (count 1), `n` retains followed by
`n + 1` releases free the Handle (payload then structure) exactly on the
final release; after any proper prefix of the releases the Handle is still
live (count `1 + n - k`) and nothing has been freed. -/
theorem retain_release_lifecycle (n : Nat) (d : String) :
    (∀ k : Nat, k < n + 1 →
      run (create_js_object true true d, [])
          (List.replicate n Op.retain ++ List.replicate k Op.release)
        = some (Ptr.live ⟨1 + (n : Int) - (k : Int), some d, d.length + 1⟩, []))
    ∧ run (create_js_object true true d, [])
        (List.replicate n Op.retain ++ List.replicate (n + 1) Op.release)
      = some (Ptr.dangling, [Event.freeData, Event.freeObj]) := by
  constructor
  · intro k hk
    exact run_create_retain_release n k d (by omega)
  · exact run_create_retain_release_all n d

/-- Witness for C1 at `n = 2`, `d = "ab"`, prefix `k = 1`: after two retains
and one release the Handle is live at count 2 with nothing freed. -/
theorem retain_release_lifecycle_witness :
    run (create_js_object true true "ab", [])
        (List.replicate 2 Op.retain ++ List.replicate 1 Op.release)
      = some (Ptr.live ⟨1 + (2 : Int) - (1 : Int), some "ab", "ab".length + 1⟩, []) :=
  (retain_release_lifecycle 2 "ab").1 1 (by norm_num)

/-- C5: `release_js_object` on a live Handle decrements the count by exactly
1; exactly when the decrement reaches 0 it frees the payload first and then
the structure (in that order), otherwise it frees nothing and only the
`ref_count` field changes. -/
theorem release_decrement_and_free (obj : JSObject) :
    (obj.ref_count = 1 →
      release_js_object (Ptr.live obj)
        = some (Ptr.dangling, [Event.freeData, Event.freeObj]))
    ∧ (obj.ref_count ≠ 1 →
      release_js_object (Ptr.live obj)
        = some (Ptr.live ⟨obj.ref_count - 1, obj.data, obj.size⟩, [])) := by
  constructor
  · intro h
    simp [release_js_object, h]
  · intro h
    have hne : ¬ (obj.ref_count - 1 = 0) := by omega
    simp [release_js_object, hne]

/-- Witness for C5 at a Handle with count 1: the release frees payload then
structure. -/
theorem release_decrement_and_free_witness :
    (JSObject.mk 1 (some "a") 2).ref_count = 1
    ∧ release_js_object (Ptr.live (JSObject.mk 1 (some "a") 2))
        = some (Ptr.dangling, [Event.freeData, Event.freeObj]) :=
  ⟨rfl, (release_decrement_and_free ⟨1, some "a", 2⟩).1 rfl⟩

/-- C6: on a live Handle, `retain_js_object` changes only `ref_count`
(incremented by 1), and `release_js_object` while the count stays at least 1
changes only `ref_count` (decremented by 1); `size` and the payload contents
are untouched by both. -/
theorem retain_release_frame (obj : JSObject) :
    retain_js_object (Ptr.live obj)
      = some (Ptr.live ⟨obj.ref_count + 1, obj.data, obj.size⟩)
    ∧ (1 < obj.ref_count →
      release_js_object (Ptr.live obj)
        = some (Ptr.live ⟨obj.ref_count - 1, obj.data, obj.size⟩, [])) := by
  constructor
  · rfl
  · intro h
    have hne : ¬ (obj.ref_count - 1 = 0) := by omega
    simp [release_js_object, hne]

/-- Witness for C6 at a Handle with count 2 and payload "x": release keeps it
live with the same payload and size. -/
theorem retain_release_frame_witness :
    1 < (JSObject.mk 2 (some "x") 2).ref_count
    ∧ release_js_object (Ptr.live (JSObject.mk 2 (some "x") 2))
        = some (Ptr.live ⟨(JSObject.mk 2 (some "x") 2).ref_count - 1,
            (JSObject.mk 2 (some "x") 2).data, (JSObject.mk 2 (some "x") 2).size⟩, []) :=
  ⟨by norm_num, (retain_release_frame ⟨2, some "x", 2⟩).2 (by norm_num)⟩

/-- C10: `perform_low_level_demo` returns -1 with no object created and
nothing freed when the Handle allocation fails; otherwise (regardless of the
payload allocation) its one create, two retains and three releases fully
free the object — payload then structure, each exactly once — and it
returns 0. -/
theorem low_level_demo_spec :
    (∀ okData : Bool, perform_low_level_demo false okData = some (-1, []))
    ∧ (∀ okData : Bool, perform_low_level_demo true okData
        = some (0, [Event.freeData, Event.freeObj])) := by
  constructor
  · intro okData
    cases okData <;> rfl
  · intro okData
    cases okData <;> rfl
